import Mathlib

/-!
# Verification of the rotational-inertia algebra (drake/multibody/tree/rotational_inertia.h)

This file gives a shallow embedding of the RotationalInertia class template of
multibody/tree/rotational_inertia.h and proves/refutes the frozen claims about it.

Modelling choices:

* The numeric scalar type T is modelled by the exact rationals ℚ.  The class
  stores a 3x3 matrix but only ever reads/writes its lower-triangular half
  (six values: three moments Ixx, Iyy, Izz and three products Ixy, Ixz, Iyz);
  the value-level model RotationalInertia therefore carries exactly those six
  rationals, mirroring set_moments_and_products_no_validity_check.
* The storage-level model RotationalInertiaStorage keeps all nine matrix
  entries, each an Option ℚ where none models the NaN sentinel that the class
  writes into every entry on default construction (member I_SP_E_) and never
  clears from the three upper off-diagonal entries.  This model is used for
  the claims about NaN handling and the sentinel upper triangle.
* Exceptions (std::logic_error / invalidity exceptions) are modelled by
  Option results or by an explicit Bool "throws" flag; the debug-build
  semantics (DRAKE_ASSERT_VOID checks enabled, scalar_predicate is_bool true)
  is the semantics modelled, since that is the checked behaviour the spec
  describes.
* The bodies of CreateInvalidityReport,
  AreMomentsOfInertiaNearPositiveAndSatisfyTriangleInequality (triangle part)
  and CalcPrincipalMomentsAndMaybeAxesOfInertia live in
  rotational_inertia.cc, which is not among the provided sources; those
  definitions are modelled from the spec and are marked as such.
-/

namespace DrakeMultibody

/-- A 3-vector of rationals, modelling Vector3 of the scalar type. -/
structure Vec3 where
  x : ℚ
  y : ℚ
  z : ℚ
deriving DecidableEq, Repr

/-- Negation of a 3-vector (componentwise). -/
def Vec3.neg (v : Vec3) : Vec3 := ⟨-v.x, -v.y, -v.z⟩

/-- Scalar multiple of a 3-vector, modelling mass * p_PQ_E. -/
def Vec3.smul (c : ℚ) (v : Vec3) : Vec3 := ⟨c * v.x, c * v.y, c * v.z⟩

/-- Value-level model of RotationalInertia: the six independent values the
class stores in the lower triangle of its symmetric 3x3 matrix, namely the
moments of inertia Ixx, Iyy, Izz (diagonal) and the products of inertia
Ixy, Ixz, Iyz (off-diagonal, negated-integral convention). -/
@[ext]
structure RotationalInertia where
  ixx : ℚ
  iyy : ℚ
  izz : ℚ
  ixy : ℚ
  ixz : ℚ
  iyz : ℚ
deriving DecidableEq, Repr

namespace RotationalInertia

/-- Trace of the inertia matrix, from T Trace(): Ixx + Iyy + Izz. -/
def trace (I : RotationalInertia) : ℚ := I.ixx + I.iyy + I.izz

/-- From CalcMaximumPossibleMomentOfInertia(): 0.5 * abs(Trace()). -/
def calcMaximumPossibleMomentOfInertia (I : RotationalInertia) : ℚ :=
  (1 / 2) * |I.trace|

/-- From operator+=: elementwise sum of the six stored values
(the lower-triangular view is incremented by the other matrix). -/
def add (I J : RotationalInertia) : RotationalInertia :=
  ⟨I.ixx + J.ixx, I.iyy + J.iyy, I.izz + J.izz,
   I.ixy + J.ixy, I.ixz + J.ixz, I.iyz + J.iyz⟩

/-- From MinusEqualsUnchecked: elementwise difference of the six stored
values, with no physical-validity check of the result. -/
def minusEqualsUnchecked (I J : RotationalInertia) : RotationalInertia :=
  ⟨I.ixx - J.ixx, I.iyy - J.iyy, I.izz - J.izz,
   I.ixy - J.ixy, I.ixz - J.ixz, I.iyz - J.iyz⟩

/-- Elementwise scaling of the six stored values by a scalar, modelling
get_mutable_triangular_view() *= s (used by operator*=, operator/= and
MultiplyByScalarSkipValidityCheck). -/
def scale (I : RotationalInertia) (s : ℚ) : RotationalInertia :=
  ⟨I.ixx * s, I.iyy * s, I.izz * s, I.ixy * s, I.ixz * s, I.iyz * s⟩

/-- From AreMomentsOfInertiaNearPositive (header, lines 995-999): each moment
of inertia is non-negative to within epsilon. -/
def areMomentsOfInertiaNearPositive (Ixx Iyy Izz ε : ℚ) : Bool :=
  decide (Ixx + ε ≥ 0) && decide (Iyy + ε ≥ 0) && decide (Izz + ε ≥ 0)

/-- Modelled from the spec: the triangle-inequality half of
AreMomentsOfInertiaNearPositiveAndSatisfyTriangleInequality, whose body is in
rotational_inertia.cc (not among the provided sources).  The spec states that
all three triangle-inequality constraints Ixx+Iyy >= Izz, Ixx+Izz >= Iyy,
Iyy+Izz >= Ixx must hold within epsilon. -/
def satisfyTriangleInequalityWithinEpsilon (Ixx Iyy Izz ε : ℚ) : Bool :=
  decide (Ixx + Iyy + ε ≥ Izz) && decide (Ixx + Izz + ε ≥ Iyy) &&
    decide (Iyy + Izz + ε ≥ Ixx)

/-- Modelled from the spec: the small positive factor making the validity
tolerance epsilon proportional to the tensor scale (the spec only states that
epsilon is a small numeric tolerance proportional to the tensor scale). -/
def epsilonFactor : ℚ := 1 / 2 ^ 40

/-- Modelled from the spec: the validity tolerance, a small tolerance
proportional to the tensor scale (here the scale is the maximum possible
moment of inertia, trace/2, the largest element a valid tensor could have). -/
def validityEpsilon (I : RotationalInertia) : ℚ :=
  epsilonFactor * I.calcMaximumPossibleMomentOfInertia

/-- Modelled from the spec: CouldBePhysicallyValid on the six stored values
(the body of CreateInvalidityReport is in rotational_inertia.cc, not among the
provided sources).  Per the spec it returns true iff every moment is at least
-epsilon and all three triangle-inequality constraints hold within epsilon
(the NaN conjunct is vacuous at the value level, where every stored value is
a finite rational; see the storage-level model for the NaN-aware version). -/
def couldBePhysicallyValid (I : RotationalInertia) : Bool :=
  areMomentsOfInertiaNearPositive I.ixx I.iyy I.izz I.validityEpsilon &&
    satisfyTriangleInequalityWithinEpsilon I.ixx I.iyy I.izz I.validityEpsilon

/-- From operator-=: first MinusEqualsUnchecked mutates the receiver, then
the validity check runs (DRAKE_ASSERT_VOID(ThrowIfNotPhysicallyValid)).  The
first component is the receiver state after the call; the second component is
true exactly when the call throws (debug-build semantics). -/
def operatorMinusEquals (I J : RotationalInertia) :
    RotationalInertia × Bool :=
  let r := I.minusEqualsUnchecked J
  (r, !r.couldBePhysicallyValid)

/-- From operator*=: in debug builds, throws (modelled as none) iff the
scalar is negative (ThrowIfMultiplyByNegativeScalar); otherwise scales the
six stored values by the scalar. -/
def operatorTimesEquals (I : RotationalInertia) (s : ℚ) :
    Option RotationalInertia :=
  if s < 0 then none else some (I.scale s)

/-- From operator/=: in debug builds, throws (modelled as none) iff the
scalar is zero or negative (ThrowIfDivideByZeroOrNegativeScalar); otherwise
multiplies the six stored values by one_over_positive_scalar = 1/s. -/
def operatorDivEquals (I : RotationalInertia) (s : ℚ) :
    Option RotationalInertia :=
  if s ≤ 0 then none else some (I.scale (1 / s))

/-- From the private constructor RotationalInertia(mass_p_PQ_E, p_PQ_E)
(header, lines 822-835): given mass*p and p it stores moments
(my*y + mz*z, mx*x + mz*z, mx*x + my*y) and products (-mx*y, -mx*z, -my*z). -/
def ofMassTimesPositionAndPosition (mp p : Vec3) : RotationalInertia :=
  ⟨mp.y * p.y + mp.z * p.z, mp.x * p.x + mp.z * p.z, mp.x * p.x + mp.y * p.y,
   -(mp.x * p.y), -(mp.x * p.z), -(mp.y * p.z)⟩

/-- From the point-mass constructor RotationalInertia(mass, p_PQ_E)
(header, lines 202-203): delegates to the private constructor with
mass * p_PQ_E and p_PQ_E. -/
def pointMass (mass : ℚ) (p : Vec3) : RotationalInertia :=
  ofMassTimesPositionAndPosition (Vec3.smul mass p) p

/-- From ShiftFromCenterOfMassInPlace / ShiftFromCenterOfMass:
this += RotationalInertia(mass, p_BcmQ_E). -/
def shiftFromCenterOfMass (I : RotationalInertia) (mass : ℚ) (p : Vec3) :
    RotationalInertia :=
  I.add (pointMass mass p)

/-- From ShiftToCenterOfMassInPlace / ShiftToCenterOfMass:
this -= RotationalInertia(mass, p_QBcm_E) (value of the result; the debug
validity check of operator-= does not change the stored values). -/
def shiftToCenterOfMass (I : RotationalInertia) (mass : ℚ) (p : Vec3) :
    RotationalInertia :=
  I.minusEqualsUnchecked (pointMass mass p)

/-- From ShiftUnitMassBodyToThenAwayFromCenterOfMass (header, lines 889-896):
the unchecked difference of the two unit-mass point tensors,
RotationalInertia(q, q).MinusEqualsUnchecked(RotationalInertia(p, p)). -/
def shiftUnitMassBodyToThenAwayFromCenterOfMass (p q : Vec3) :
    RotationalInertia :=
  (ofMassTimesPositionAndPosition q q).minusEqualsUnchecked
    (ofMassTimesPositionAndPosition p p)

/-- From ShiftToThenAwayFromCenterOfMassInPlace (header, lines 746-751):
this += mass * ShiftUnitMassBodyToThenAwayFromCenterOfMass(p_PBcm_E,
p_QBcm_E); only this final sum is validity-checked (in debug builds), the
internal subtraction is the unchecked one. -/
def shiftToThenAwayFromCenterOfMass (I : RotationalInertia) (mass : ℚ)
    (p q : Vec3) : RotationalInertia :=
  I.add ((shiftUnitMassBodyToThenAwayFromCenterOfMass p q).scale mass)

/-- From IsApproxMomentsAndProducts (header, lines 968-975): the infinity
norm of the moment difference and of the product difference must both be at
most epsilon. -/
def isApproxMomentsAndProducts (I J : RotationalInertia) (ε : ℚ) : Bool :=
  let momentMax := max |I.ixx - J.ixx| (max |I.iyy - J.iyy| |I.izz - J.izz|)
  let productMax := max |I.ixy - J.ixy| (max |I.ixz - J.ixz| |I.iyz - J.iyz|)
  decide (momentMax ≤ ε) && decide (productMax ≤ ε)

/-- From IsNearlyEqualTo (header, lines 307-315): elementwise comparison with
absolute tolerance precision * min of the two maximum possible moments. -/
def isNearlyEqualTo (I J : RotationalInertia) (precision : ℚ) : Bool :=
  let eps := precision * min I.calcMaximumPossibleMomentOfInertia
    J.calcMaximumPossibleMomentOfInertia
  isApproxMomentsAndProducts I J eps

/-- Stated from the claim wording (for comparison with the source-derived
isNearlyEqualTo): the claim says the tolerance is relativePrecision times the
minimum of the two values 0.5 * trace (half the plain sum Ixx+Iyy+Izz, with
no absolute value). -/
def isNearlyEqualToClaimFormula (I J : RotationalInertia) (precision : ℚ) :
    Bool :=
  let eps := precision * min ((1 / 2) * I.trace) ((1 / 2) * J.trace)
  isApproxMomentsAndProducts I J eps

/-- From CopyToFullMatrix3 / get_symmetric_matrix_view: the full symmetric
3x3 matrix determined by the six stored values (the self-adjoint view of the
lower triangle). -/
def copyToFullMatrix3 (I : RotationalInertia) : Matrix (Fin 3) (Fin 3) ℚ :=
  !![I.ixx, I.ixy, I.ixz;
     I.ixy, I.iyy, I.iyz;
     I.ixz, I.iyz, I.izz]

/-- Characteristic function of the symmetric inertia matrix: the value of the
characteristic polynomial det(x * Identity - I) at x.  Used to state what it
means for a triple to be the eigenvalues (with multiplicity) of the tensor. -/
def charFun (I : RotationalInertia) (x : ℚ) : ℚ :=
  Matrix.det (x • (1 : Matrix (Fin 3) (Fin 3) ℚ) - I.copyToFullMatrix3)

/-- Modelled from the spec: the input/output relation of
CalcPrincipalMomentsAndMaybeAxesOfInertia, whose body is in
rotational_inertia.cc (not among the provided sources).  Per the spec the
solver performs a symmetric eigen-decomposition of the materialized matrix and
returns the three eigenvalues sorted ascending as the principal moments
together with matching orthonormal eigenvector columns forming a proper
rotation (determinant +1); if all three eigenvalues coincide it returns the
identity rotation by convention.  Eigenvalues-with-multiplicity is expressed
by requiring the characteristic polynomial to factor as
(x - e 0)(x - e 1)(x - e 2). -/
def IsPrincipalDecomposition (I : RotationalInertia) (e : Fin 3 → ℚ)
    (R : Matrix (Fin 3) (Fin 3) ℚ) : Prop :=
  (∀ x : ℚ, I.charFun x = (x - e 0) * (x - e 1) * (x - e 2)) ∧
  (e 0 ≤ e 1 ∧ e 1 ≤ e 2) ∧
  (∀ j, I.copyToFullMatrix3.mulVec (fun i => R i j) = fun i => e j * R i j) ∧
  R.transpose * R = 1 ∧
  R.det = 1 ∧
  ((e 0 = e 1 ∧ e 1 = e 2) → R = 1)

end RotationalInertia

/-- Storage-level model of RotationalInertia: the full 3x3 matrix member
I_SP_E_, each entry an Option ℚ where none models the NaN sentinel (the class
initializes every entry to quiet_NaN and never writes the three upper
off-diagonal entries).  Field mij models matrix entry (i, j); the lower
triangle holds Ixx = m00, Iyy = m11, Izz = m22, Ixy = m10, Ixz = m20,
Iyz = m21. -/
@[ext]
structure RotationalInertiaStorage where
  m00 : Option ℚ
  m10 : Option ℚ
  m11 : Option ℚ
  m20 : Option ℚ
  m21 : Option ℚ
  m22 : Option ℚ
  m01 : Option ℚ
  m02 : Option ℚ
  m12 : Option ℚ
deriving DecidableEq, Repr

namespace RotationalInertiaStorage

/-- From the default constructor RotationalInertia(): every matrix entry is
the NaN sentinel (I_SP_E_ is initialized to Matrix3 Constant quiet_NaN). -/
def default : RotationalInertiaStorage :=
  ⟨none, none, none, none, none, none, none, none, none⟩

/-- From set_moments_and_products_no_validity_check (header, lines 861-874):
writes the six lower-triangular entries and leaves the three upper
off-diagonal entries untouched (they remain NaN sentinels). -/
def setMomentsAndProductsNoValidityCheck (s : RotationalInertiaStorage)
    (Ixx Iyy Izz Ixy Ixz Iyz : ℚ) : RotationalInertiaStorage :=
  { s with m00 := some Ixx, m11 := some Iyy, m22 := some Izz,
           m10 := some Ixy, m20 := some Ixz, m21 := some Iyz }

/-- From the six-argument constructor RotationalInertia(Ixx, ..., Iyz):
default NaN storage followed by
set_moments_and_products_no_validity_check. -/
def ofMomentsAndProducts (Ixx Iyy Izz Ixy Ixz Iyz : ℚ) :
    RotationalInertiaStorage :=
  default.setMomentsAndProductsNoValidityCheck Ixx Iyy Izz Ixy Ixz Iyz

/-- From SetZero (header, lines 492-496): only the lower-triangular part is
set to zero; the three upper off-diagonal entries remain NaN sentinels. -/
def setZero (s : RotationalInertiaStorage) : RotationalInertiaStorage :=
  { s with m00 := some 0, m10 := some 0, m11 := some 0,
           m20 := some 0, m21 := some 0, m22 := some 0 }

/-- From SetToNaN (header, lines 483-486): every entry becomes NaN. -/
def setToNaN (_ : RotationalInertiaStorage) : RotationalInertiaStorage :=
  default

/-- From IsFinite (header, lines 500-513): checks only the six
lower-triangular entries for finiteness (an Option ℚ entry is finite iff it
is not the NaN sentinel; the exact-rational model has no infinities). -/
def isFiniteStored (s : RotationalInertiaStorage) : Bool :=
  s.m00.isSome && s.m10.isSome && s.m11.isSome && s.m20.isSome &&
    s.m21.isSome && s.m22.isSome

/-- From IsNaN (header, lines 517-530): true iff some lower-triangular entry
is the NaN sentinel; the upper off-diagonal entries are not consulted. -/
def isNaNStored (s : RotationalInertiaStorage) : Bool :=
  s.m00.isNone || s.m10.isNone || s.m11.isNone || s.m20.isNone ||
    s.m21.isNone || s.m22.isNone

/-- From IsZero (header, lines 533-545): true iff the six lower-triangular
entries are all exactly zero; the upper off-diagonal entries are not
consulted. -/
def isZeroStored (s : RotationalInertiaStorage) : Bool :=
  decide (s.m00 = some 0) && decide (s.m10 = some 0) &&
    decide (s.m11 = some 0) && decide (s.m20 = some 0) &&
    decide (s.m21 = some 0) && decide (s.m22 = some 0)

/-- Modelled from the spec: CouldBePhysicallyValid at the storage level (the
body of CreateInvalidityReport is in rotational_inertia.cc, not among the
provided sources).  Per the spec it returns true iff no stored moment or
product of inertia is NaN, every moment is at least -epsilon, and all three
triangle-inequality constraints hold within epsilon, where epsilon is a small
tolerance proportional to the tensor scale. -/
def couldBePhysicallyValidStored (s : RotationalInertiaStorage) : Bool :=
  match s.m00, s.m11, s.m22, s.m10, s.m20, s.m21 with
  | some Ixx, some Iyy, some Izz, some _, some _, some _ =>
      let ε := RotationalInertia.epsilonFactor * ((1 / 2) * |Ixx + Iyy + Izz|)
      RotationalInertia.areMomentsOfInertiaNearPositive Ixx Iyy Izz ε &&
        RotationalInertia.satisfyTriangleInequalityWithinEpsilon Ixx Iyy Izz ε
  | _, _, _, _, _, _ => false

/-- Agreement of two storages on the six stored (lower-triangular) values. -/
def EqOnStored (s t : RotationalInertiaStorage) : Prop :=
  s.m00 = t.m00 ∧ s.m10 = t.m10 ∧ s.m11 = t.m11 ∧ s.m20 = t.m20 ∧
    s.m21 = t.m21 ∧ s.m22 = t.m22

end RotationalInertiaStorage

/-!
## Helper lemmas shared by the claim theorems
-/

namespace RotationalInertia

/-- Bool-level validity test unfolded to the inequalities it decides:
every moment at least -epsilon, every triangle inequality within epsilon. -/
theorem momentsAndTriangleWithin_iff (a b c ε : ℚ) :
    (areMomentsOfInertiaNearPositive a b c ε = true ∧
        satisfyTriangleInequalityWithinEpsilon a b c ε = true) ↔
      ((-ε ≤ a ∧ -ε ≤ b ∧ -ε ≤ c) ∧
        (a + b + ε ≥ c ∧ a + c + ε ≥ b ∧ b + c + ε ≥ a)) := by
  simp only [areMomentsOfInertiaNearPositive,
    satisfyTriangleInequalityWithinEpsilon, Bool.and_eq_true,
    decide_eq_true_iff, ge_iff_le]
  constructor
  · rintro ⟨⟨⟨h1, h2⟩, h3⟩, ⟨h4, h5⟩, h6⟩
    exact ⟨⟨by linarith, by linarith, by linarith⟩, h4, h5, h6⟩
  · rintro ⟨⟨h1, h2, h3⟩, h4, h5, h6⟩
    exact ⟨⟨⟨by linarith, by linarith⟩, by linarith⟩, ⟨h4, h5⟩, h6⟩

/-- Nonnegative moments that satisfy the exact triangle inequality pass the
epsilon-relaxed validity test for any nonnegative epsilon. -/
theorem momentsAndTriangle_true_of_nonneg (a b c ε : ℚ) (hε : 0 ≤ ε)
    (ha : 0 ≤ a) (hb : 0 ≤ b) (hc : 0 ≤ c)
    (hab : c ≤ a + b) (hac : b ≤ a + c) (hbc : a ≤ b + c) :
    (areMomentsOfInertiaNearPositive a b c ε &&
        satisfyTriangleInequalityWithinEpsilon a b c ε) = true := by
  rw [Bool.and_eq_true, momentsAndTriangleWithin_iff]
  exact ⟨⟨by linarith, by linarith, by linarith⟩,
    by linarith, by linarith, by linarith⟩

/-- The unit point tensor of a negated offset equals that of the offset
itself: every entry depends only on products of two components. -/
theorem ofMass_neg_neg (d : Vec3) :
    ofMassTimesPositionAndPosition d.neg d.neg =
      ofMassTimesPositionAndPosition d d := by
  ext <;> simp [ofMassTimesPositionAndPosition, Vec3.neg] <;> ring

/-- The point-mass constructor is invariant under negating the offset. -/
theorem pointMass_neg (m : ℚ) (d : Vec3) :
    pointMass m d.neg = pointMass m d := by
  ext <;>
    simp [pointMass, ofMassTimesPositionAndPosition, Vec3.smul, Vec3.neg] <;>
    ring

/-- The triaxially-symmetric tensor with moments 5 admits the principal
decomposition with eigenvalues (5, 5, 5) and the identity rotation. -/
theorem triaxialDecomposition :
    IsPrincipalDecomposition ⟨5, 5, 5, 0, 0, 0⟩ ![5, 5, 5] 1 := by
  refine ⟨fun x => ?_, ⟨?_, ?_⟩, fun j => ?_, ?_, ?_, fun _ => rfl⟩
  · simp [charFun, copyToFullMatrix3, Matrix.det_fin_three, Matrix.smul_apply,
      Matrix.sub_apply, Matrix.one_apply] <;> ring
  · norm_num
  · norm_num
  · funext i
    fin_cases i <;> fin_cases j <;>
      simp [copyToFullMatrix3, Matrix.mulVec, Matrix.dotProduct,
        Fin.sum_univ_three, Matrix.one_apply]
  · simp
  · simp

end RotationalInertia

/-!
## Claim theorems
-/

namespace RotationalInertiaStorage

/-- C1: CouldBePhysicallyValid returns true if and only if no stored moment
or product of inertia is NaN, each of the three moments is at least -epsilon
(epsilon a small tolerance proportional to the tensor scale), and the three
triangle inequalities hold within epsilon; and for every triple of
non-negative diagonal values satisfying the triangle inequality with all
products zero, it returns true. -/
theorem couldBePhysicallyValid_iff_noNaN_and_nonneg_triangle :
    (∀ s : RotationalInertiaStorage,
        s.couldBePhysicallyValidStored = true ↔
          (s.isNaNStored = false ∧
            (let a := s.m00.getD 0
             let b := s.m11.getD 0
             let c := s.m22.getD 0
             let ε := RotationalInertia.epsilonFactor *
               ((1 / 2) * |a + b + c|)
             (-ε ≤ a ∧ -ε ≤ b ∧ -ε ≤ c) ∧
               (a + b + ε ≥ c ∧ a + c + ε ≥ b ∧ b + c + ε ≥ a)))) ∧
    (∀ a b c : ℚ, 0 ≤ a → 0 ≤ b → 0 ≤ c →
        c ≤ a + b → b ≤ a + c → a ≤ b + c →
        (ofMomentsAndProducts a b c 0 0 0).couldBePhysicallyValidStored =
          true) := by
  constructor
  · intro s
    obtain ⟨m00, m10, m11, m20, m21, m22, m01, m02, m12⟩ := s
    cases m00 <;> cases m11 <;> cases m22 <;> cases m10 <;> cases m20 <;>
      cases m21 <;>
      simp [couldBePhysicallyValidStored, isNaNStored,
        RotationalInertia.momentsAndTriangleWithin_iff]
  · intro a b c ha hb hc hab hac hbc
    have hε : (0 : ℚ) ≤ RotationalInertia.epsilonFactor *
        ((1 / 2) * |a + b + c|) := by
      have h1 : (0 : ℚ) ≤ RotationalInertia.epsilonFactor := by
        norm_num [RotationalInertia.epsilonFactor]
      have h2 : (0 : ℚ) ≤ (1 / 2) * |a + b + c| := by positivity
      exact mul_nonneg h1 h2
    show (RotationalInertia.areMomentsOfInertiaNearPositive a b c
          (RotationalInertia.epsilonFactor * ((1 / 2) * |a + b + c|)) &&
        RotationalInertia.satisfyTriangleInequalityWithinEpsilon a b c
          (RotationalInertia.epsilonFactor * ((1 / 2) * |a + b + c|))) = true
    exact RotationalInertia.momentsAndTriangle_true_of_nonneg a b c _ hε
      ha hb hc hab hac hbc

/-- Witness for C1: the non-negative triangle-satisfying diagonal (1, 1, 1)
with zero products is accepted by CouldBePhysicallyValid. -/
theorem couldBePhysicallyValid_nonneg_triangle_witness :
    (ofMomentsAndProducts 1 1 1 0 0 0).couldBePhysicallyValidStored = true :=
  couldBePhysicallyValid_iff_noNaN_and_nonneg_triangle.2 1 1 1 (by norm_num)
    (by norm_num) (by norm_num) (by norm_num) (by norm_num) (by norm_num)

end RotationalInertiaStorage

namespace RotationalInertia

/-- C2 counterexample: subtracting the valid tensor diag(0, 1, 1) from the
valid tensor diag(1, 1, 1) makes the checked operator-= throw (the unchecked
difference diag(1, 0, 0) badly violates the triangle inequality), yet the
receiver does not keep its pre-call values: it holds the mutated difference.
This refutes the claim that a failing check leaves the receiver unchanged. -/
theorem operatorMinusEquals_throw_mutates_counterexample :
    (operatorMinusEquals ⟨1, 1, 1, 0, 0, 0⟩ ⟨0, 1, 1, 0, 0, 0⟩).2 = true ∧
      (operatorMinusEquals ⟨1, 1, 1, 0, 0, 0⟩ ⟨0, 1, 1, 0, 0, 0⟩).1 ≠
        ⟨1, 1, 1, 0, 0, 0⟩ := by
  norm_num [operatorMinusEquals, minusEqualsUnchecked, couldBePhysicallyValid,
    areMomentsOfInertiaNearPositive, satisfyTriangleInequalityWithinEpsilon,
    validityEpsilon, epsilonFactor, calcMaximumPossibleMomentOfInertia, trace]

/-- C2 amended: operator-= first applies the unchecked elementwise
subtraction to the receiver and only then runs the validity check, so after
a call that throws the receiver holds the unchecked difference (not its
pre-call values); the throw happens exactly when that difference fails
CouldBePhysicallyValid.  Only the basic exception-safety guarantee holds
(the receiver is a well-formed, possibly invalid, tensor). -/
theorem operatorMinusEquals_result_and_throw_condition :
    ∀ I J : RotationalInertia,
      (I.operatorMinusEquals J).1 =
        ⟨I.ixx - J.ixx, I.iyy - J.iyy, I.izz - J.izz,
         I.ixy - J.ixy, I.ixz - J.ixz, I.iyz - J.iyz⟩ ∧
      ((I.operatorMinusEquals J).2 = true ↔
        (I.minusEqualsUnchecked J).couldBePhysicallyValid = false) := by
  intro I J
  refine ⟨rfl, ?_⟩
  simp [operatorMinusEquals]

/-- C3 counterexample: on the pair A = B = diag(-2, -2, -2) (constructible
via the skip-validity-check path) with precision 1/2, IsNearlyEqualTo
returns true (the code tolerance uses 0.5 * abs(trace) = 3), while the
claimed tolerance 0.5 * trace = -3 is negative and would reject the pair.
This refutes the claim that maxPossibleMoment equals 0.5 * trace (without
absolute value) for every rotational inertia. -/
theorem isNearlyEqualTo_claimFormula_counterexample :
    isNearlyEqualTo ⟨-2, -2, -2, 0, 0, 0⟩ ⟨-2, -2, -2, 0, 0, 0⟩ (1 / 2) =
        true ∧
      isNearlyEqualToClaimFormula ⟨-2, -2, -2, 0, 0, 0⟩ ⟨-2, -2, -2, 0, 0, 0⟩
          (1 / 2) =
        false := by
  constructor
  · norm_num [isNearlyEqualTo, isApproxMomentsAndProducts,
      calcMaximumPossibleMomentOfInertia, trace]
  · norm_num [isNearlyEqualToClaimFormula, isApproxMomentsAndProducts, trace]

/-- C3 amended: for every pair of rotational inertias and every precision,
IsNearlyEqualTo returns true exactly when each of the six elementwise
differences is within the absolute tolerance
precision * min(maxPossibleMoment(A), maxPossibleMoment(B)), where
maxPossibleMoment equals 0.5 * abs(trace) (half the absolute value of
Ixx + Iyy + Izz, as computed by CalcMaximumPossibleMomentOfInertia). -/
theorem isNearlyEqualTo_iff_within_absTrace_tolerance :
    ∀ (I J : RotationalInertia) (p : ℚ),
      I.isNearlyEqualTo J p = true ↔
        (|I.ixx - J.ixx| ≤ p * min ((1/2) * |I.trace|) ((1/2) * |J.trace|) ∧
         |I.iyy - J.iyy| ≤ p * min ((1/2) * |I.trace|) ((1/2) * |J.trace|) ∧
         |I.izz - J.izz| ≤ p * min ((1/2) * |I.trace|) ((1/2) * |J.trace|) ∧
         |I.ixy - J.ixy| ≤ p * min ((1/2) * |I.trace|) ((1/2) * |J.trace|) ∧
         |I.ixz - J.ixz| ≤ p * min ((1/2) * |I.trace|) ((1/2) * |J.trace|) ∧
         |I.iyz - J.iyz| ≤ p * min ((1/2) * |I.trace|)
           ((1/2) * |J.trace|)) := by
  intro I J p
  simp only [isNearlyEqualTo, isApproxMomentsAndProducts,
    calcMaximumPossibleMomentOfInertia, Bool.and_eq_true, decide_eq_true_iff,
    max_le_iff]
  tauto

/-- C4: the fused shift ShiftToThenAwayFromCenterOfMass(m, p, q) — which
adds mass times the unchecked difference of the two unit point tensors, so
that only the final sum is validity-checked — produces exactly the same
tensor as ShiftToCenterOfMassInPlace(m, p) followed by
ShiftFromCenterOfMassInPlace(m, q). -/
theorem shiftToThenAwayFromCenterOfMass_eq_shiftTo_then_shiftFrom :
    ∀ (I : RotationalInertia) (m : ℚ) (p q : Vec3),
      I.shiftToThenAwayFromCenterOfMass m p q =
        (I.shiftToCenterOfMass m p).shiftFromCenterOfMass m q := by
  intro I m p q
  ext <;>
    simp [shiftToThenAwayFromCenterOfMass, shiftToCenterOfMass,
      shiftFromCenterOfMass, shiftUnitMassBodyToThenAwayFromCenterOfMass,
      pointMass, ofMassTimesPositionAndPosition, Vec3.smul, add,
      minusEqualsUnchecked, scale] <;>
    ring

/-- C5: for every valid rotational inertia, mass and offset, shifting to the
center of mass and then back (the two const calls, which operate on copies
and leave the original unchanged by construction) reproduces the original
tensor exactly — over the exact rationals no floating tolerance is needed. -/
theorem shiftToCenterOfMass_then_shiftFromCenterOfMass_roundtrip
    (I : RotationalInertia) (m : ℚ) (d : Vec3)
    (h : I.couldBePhysicallyValid = true) :
    (I.shiftToCenterOfMass m d).shiftFromCenterOfMass m d = I := by
  ext <;>
    simp [shiftToCenterOfMass, shiftFromCenterOfMass, pointMass,
      ofMassTimesPositionAndPosition, Vec3.smul, add, minusEqualsUnchecked]

/-- Witness for C5: the valid tensor diag(1, 1, 1) with mass 1 and offset
(1, 0, 0) round-trips to itself. -/
theorem shiftToCenterOfMass_roundtrip_witness :
    ((⟨1, 1, 1, 0, 0, 0⟩ : RotationalInertia).shiftToCenterOfMass 1
        ⟨1, 0, 0⟩).shiftFromCenterOfMass 1 ⟨1, 0, 0⟩ =
      ⟨1, 1, 1, 0, 0, 0⟩ :=
  shiftToCenterOfMass_then_shiftFromCenterOfMass_roundtrip
    ⟨1, 1, 1, 0, 0, 0⟩ 1 ⟨1, 0, 0⟩ (by
      norm_num [couldBePhysicallyValid, areMomentsOfInertiaNearPositive,
        satisfyTriangleInequalityWithinEpsilon, validityEpsilon,
        epsilonFactor, calcMaximumPossibleMomentOfInertia, trace])

/-- C6: scalar multiplication throws the invalid-scale error exactly when
the scalar is negative and scalar division throws exactly when the scalar is
zero or negative; otherwise the result scales the six stored values
elementwise (division multiplies by 1/s, which over the rationals is exact
elementwise division). -/
theorem operatorTimesEquals_operatorDivEquals_error_iff_and_scale :
    ∀ (I : RotationalInertia) (s : ℚ),
      (I.operatorTimesEquals s = none ↔ s < 0) ∧
      (0 ≤ s → I.operatorTimesEquals s =
        some ⟨I.ixx * s, I.iyy * s, I.izz * s,
              I.ixy * s, I.ixz * s, I.iyz * s⟩) ∧
      (I.operatorDivEquals s = none ↔ s ≤ 0) ∧
      (0 < s → I.operatorDivEquals s =
        some ⟨I.ixx / s, I.iyy / s, I.izz / s,
              I.ixy / s, I.ixz / s, I.iyz / s⟩) := by
  intro I s
  refine ⟨?_, fun hs => ?_, ?_, fun hs => ?_⟩
  · simp [operatorTimesEquals]
  · rw [operatorTimesEquals, if_neg (not_lt.mpr hs)]
    simp [scale]
  · simp [operatorDivEquals]
  · rw [operatorDivEquals, if_neg (not_le.mpr hs)]
    simp [scale, div_eq_mul_inv]

/-- Witness for C6: multiplying diag(1, 2, 3) by 2 succeeds elementwise,
multiplying by -1 throws, and dividing by 2 halves elementwise. -/
theorem operatorTimesEquals_operatorDivEquals_witness :
    (⟨1, 2, 3, 0, 0, 0⟩ : RotationalInertia).operatorTimesEquals 2 =
        some ⟨1 * 2, 2 * 2, 3 * 2, 0 * 2, 0 * 2, 0 * 2⟩ ∧
      (⟨1, 2, 3, 0, 0, 0⟩ : RotationalInertia).operatorTimesEquals (-1) =
        none ∧
      (⟨1, 2, 3, 0, 0, 0⟩ : RotationalInertia).operatorDivEquals 2 =
        some ⟨1 / 2, 2 / 2, 3 / 2, 0 / 2, 0 / 2, 0 / 2⟩ :=
  ⟨(operatorTimesEquals_operatorDivEquals_error_iff_and_scale
      ⟨1, 2, 3, 0, 0, 0⟩ 2).2.1 (by norm_num),
   (operatorTimesEquals_operatorDivEquals_error_iff_and_scale
      ⟨1, 2, 3, 0, 0, 0⟩ (-1)).1.mpr (by norm_num),
   (operatorTimesEquals_operatorDivEquals_error_iff_and_scale
      ⟨1, 2, 3, 0, 0, 0⟩ 2).2.2.2 (by norm_num)⟩

/-- C7: the point-mass constructor with mass m and offset d produces the
tensor m * (norm-squared(d) * Identity - d dᵀ); concretely, mass 2 at
(1, 0, 0) yields moments (0, 2, 2) with zero products, and mass 2 at
(1, 1, 0) yields moments (2, 2, 4) with Ixy = -2 and the other products
zero. -/
theorem pointMass_formula_and_concrete_instances :
    (∀ (m : ℚ) (d : Vec3),
        copyToFullMatrix3 (pointMass m d) =
          m • (((d.x ^ 2 + d.y ^ 2 + d.z ^ 2) •
              (1 : Matrix (Fin 3) (Fin 3) ℚ)) -
            Matrix.vecMulVec ![d.x, d.y, d.z] ![d.x, d.y, d.z])) ∧
    pointMass 2 ⟨1, 0, 0⟩ = ⟨0, 2, 2, 0, 0, 0⟩ ∧
    pointMass 2 ⟨1, 1, 0⟩ = ⟨2, 2, 4, -2, 0, 0⟩ := by
  refine ⟨fun m d => ?_,
    by norm_num [pointMass, ofMassTimesPositionAndPosition, Vec3.smul],
    by norm_num [pointMass, ofMassTimesPositionAndPosition, Vec3.smul]⟩
  ext i j
  fin_cases i <;> fin_cases j <;>
    simp [copyToFullMatrix3, pointMass, ofMassTimesPositionAndPosition,
      Vec3.smul, Matrix.vecMulVec, Matrix.one_apply] <;>
    ring

/-- C8: for every valid rotational inertia, any output of the spec-modelled
principal-moment solver (eigenvalues with multiplicity, sorted ascending,
orthonormal eigenvector columns forming a proper rotation, identity when all
eigenvalues coincide) has principal moments summing to the trace and sorted
ascending; and for every tensor with three equal diagonal values and zero
products the returned rotation matrix is the identity (for such tensors the
characteristic polynomial forces all three eigenvalues to coincide). -/
theorem principalMoments_sum_trace_sorted_and_triaxial_identity
    (I : RotationalInertia) (e : Fin 3 → ℚ)
    (R : Matrix (Fin 3) (Fin 3) ℚ)
    (hvalid : I.couldBePhysicallyValid = true)
    (hdec : IsPrincipalDecomposition I e R) :
    (e 0 + e 1 + e 2 = I.trace ∧ e 0 ≤ e 1 ∧ e 1 ≤ e 2) ∧
      ((I.ixx = I.iyy ∧ I.iyy = I.izz ∧ I.ixy = 0 ∧ I.ixz = 0 ∧ I.iyz = 0) →
        R = 1) := by
  refine ⟨⟨?_, hdec.2.1.1, hdec.2.1.2⟩, ?_⟩
  · have h1 := hdec.1 1
    have h0 := hdec.1 0
    have hm1 := hdec.1 (-1)
    simp [charFun, copyToFullMatrix3, Matrix.det_fin_three, Matrix.smul_apply,
      Matrix.sub_apply, Matrix.one_apply] at h1 h0 hm1
    show e 0 + e 1 + e 2 = I.ixx + I.iyy + I.izz
    ring_nf at h1 h0 hm1
    linarith [h1, h0, hm1]
  · rintro ⟨h12, h23, hxy, hxz, hyz⟩
    have key : ∀ x : ℚ,
        (x - e 0) * (x - e 1) * (x - e 2) = (x - I.ixx) ^ 3 := by
      intro x
      rw [← hdec.1 x]
      simp [charFun, copyToFullMatrix3, Matrix.det_fin_three,
        Matrix.smul_apply, Matrix.sub_apply, Matrix.one_apply, hxy, hxz, hyz,
        ← h12, ← h23] <;> ring
    have he0 : e 0 = I.ixx := by
      have h3 : (e 0 - I.ixx) ^ 3 = 0 := by rw [← key (e 0)]; ring
      have h4 := (pow_eq_zero_iff (by norm_num : (3 : ℕ) ≠ 0)).mp h3
      linarith [sub_eq_zero.mp h4]
    have he1 : e 1 = I.ixx := by
      have h3 : (e 1 - I.ixx) ^ 3 = 0 := by rw [← key (e 1)]; ring
      have h4 := (pow_eq_zero_iff (by norm_num : (3 : ℕ) ≠ 0)).mp h3
      linarith [sub_eq_zero.mp h4]
    have he2 : e 2 = I.ixx := by
      have h3 : (e 2 - I.ixx) ^ 3 = 0 := by rw [← key (e 2)]; ring
      have h4 := (pow_eq_zero_iff (by norm_num : (3 : ℕ) ≠ 0)).mp h3
      linarith [sub_eq_zero.mp h4]
    exact hdec.2.2.2.2.2 ⟨by rw [he0, he1], by rw [he1, he2]⟩

/-- Witness for C8: the valid tensor with moments (5, 5, 5) and zero
products admits the decomposition with eigenvalues (5, 5, 5) and identity
rotation; its principal moments sum to its trace and the returned rotation
is the identity. -/
theorem principalMoments_triaxial_witness :
    (⟨5, 5, 5, 0, 0, 0⟩ : RotationalInertia).couldBePhysicallyValid = true ∧
      IsPrincipalDecomposition ⟨5, 5, 5, 0, 0, 0⟩ ![5, 5, 5] 1 ∧
      ((5 : ℚ) + 5 + 5 = (⟨5, 5, 5, 0, 0, 0⟩ : RotationalInertia).trace ∧
        (5 : ℚ) ≤ 5 ∧ (5 : ℚ) ≤ 5) ∧
      (1 : Matrix (Fin 3) (Fin 3) ℚ) = 1 :=
  ⟨by
    norm_num [couldBePhysicallyValid, areMomentsOfInertiaNearPositive,
      satisfyTriangleInequalityWithinEpsilon, validityEpsilon, epsilonFactor,
      calcMaximumPossibleMomentOfInertia, trace],
   triaxialDecomposition,
   (principalMoments_sum_trace_sorted_and_triaxial_identity
      ⟨5, 5, 5, 0, 0, 0⟩ ![5, 5, 5] 1
      (by
        norm_num [couldBePhysicallyValid, areMomentsOfInertiaNearPositive,
          satisfyTriangleInequalityWithinEpsilon, validityEpsilon,
          epsilonFactor, calcMaximumPossibleMomentOfInertia, trace])
      triaxialDecomposition).1,
   (principalMoments_sum_trace_sorted_and_triaxial_identity
      ⟨5, 5, 5, 0, 0, 0⟩ ![5, 5, 5] 1
      (by
        norm_num [couldBePhysicallyValid, areMomentsOfInertiaNearPositive,
          satisfyTriangleInequalityWithinEpsilon, validityEpsilon,
          epsilonFactor, calcMaximumPossibleMomentOfInertia, trace])
      triaxialDecomposition).2 ⟨rfl, rfl, rfl, rfl, rfl⟩⟩

/-- C9: the point-mass constructor produces exactly the same six stored
values for offset d and for offset -d, and consequently negating the offset
vector passed to any of the shift operations (from, to, or to-then-away,
in either vector argument) never changes the result. -/
theorem pointMass_and_shifts_negate_offset_invariant :
    (∀ (m : ℚ) (d : Vec3), pointMass m d.neg = pointMass m d) ∧
    (∀ (I : RotationalInertia) (m : ℚ) (d : Vec3),
        I.shiftFromCenterOfMass m d.neg = I.shiftFromCenterOfMass m d) ∧
    (∀ (I : RotationalInertia) (m : ℚ) (d : Vec3),
        I.shiftToCenterOfMass m d.neg = I.shiftToCenterOfMass m d) ∧
    (∀ (I : RotationalInertia) (m : ℚ) (p q : Vec3),
        I.shiftToThenAwayFromCenterOfMass m p.neg q =
          I.shiftToThenAwayFromCenterOfMass m p q) ∧
    (∀ (I : RotationalInertia) (m : ℚ) (p q : Vec3),
        I.shiftToThenAwayFromCenterOfMass m p q.neg =
          I.shiftToThenAwayFromCenterOfMass m p q) := by
  refine ⟨pointMass_neg, fun I m d => ?_, fun I m d => ?_,
    fun I m p q => ?_, fun I m p q => ?_⟩
  · rw [shiftFromCenterOfMass, shiftFromCenterOfMass, pointMass_neg]
  · rw [shiftToCenterOfMass, shiftToCenterOfMass, pointMass_neg]
  · rw [shiftToThenAwayFromCenterOfMass, shiftToThenAwayFromCenterOfMass,
      shiftUnitMassBodyToThenAwayFromCenterOfMass,
      shiftUnitMassBodyToThenAwayFromCenterOfMass, ofMass_neg_neg]
  · rw [shiftToThenAwayFromCenterOfMass, shiftToThenAwayFromCenterOfMass,
      shiftUnitMassBodyToThenAwayFromCenterOfMass,
      shiftUnitMassBodyToThenAwayFromCenterOfMass, ofMass_neg_neg]

end RotationalInertia

namespace RotationalInertiaStorage

/-- C10: the diagnostic predicates IsFinite, IsNaN and IsZero are determined
solely by the six stored lower-triangular values (storages agreeing on those
six values give identical predicate results); SetZero and the lower-triangle
setter never overwrite the three upper off-diagonal entries; and after
SetZero on a default-constructed storage IsFinite returns true even though
the upper triangle still holds the NaN sentinels. -/
theorem predicates_ignore_upper_triangle_sentinels :
    (∀ s t : RotationalInertiaStorage, s.EqOnStored t →
        s.isFiniteStored = t.isFiniteStored ∧
          s.isNaNStored = t.isNaNStored ∧
          s.isZeroStored = t.isZeroStored) ∧
    (∀ s : RotationalInertiaStorage,
        s.setZero.isFiniteStored = true ∧
          s.setZero.m01 = s.m01 ∧ s.setZero.m02 = s.m02 ∧
          s.setZero.m12 = s.m12) ∧
    (∀ (s : RotationalInertiaStorage) (Ixx Iyy Izz Ixy Ixz Iyz : ℚ),
        (s.setMomentsAndProductsNoValidityCheck Ixx Iyy Izz Ixy Ixz
              Iyz).m01 = s.m01 ∧
          (s.setMomentsAndProductsNoValidityCheck Ixx Iyy Izz Ixy Ixz
              Iyz).m02 = s.m02 ∧
          (s.setMomentsAndProductsNoValidityCheck Ixx Iyy Izz Ixy Ixz
              Iyz).m12 = s.m12) ∧
    default.setZero.isFiniteStored = true ∧
      default.setZero.m01 = none ∧ default.setZero.m02 = none ∧
      default.setZero.m12 = none := by
  refine ⟨fun s t h => ?_, fun s => ?_, fun s Ixx Iyy Izz Ixy Ixz Iyz => ?_,
    ?_, rfl, rfl, rfl⟩
  · obtain ⟨h1, h2, h3, h4, h5, h6⟩ := h
    refine ⟨?_, ?_, ?_⟩ <;>
      simp [isFiniteStored, isNaNStored, isZeroStored, h1, h2, h3, h4, h5, h6]
  · exact ⟨rfl, rfl, rfl, rfl⟩
  · exact ⟨rfl, rfl, rfl⟩
  · rfl

/-- Witness for C10: two concrete storages agreeing on the six stored values
but differing in all three upper off-diagonal entries (NaN sentinels versus
finite values) give identical IsFinite, IsNaN and IsZero results. -/
theorem predicates_ignore_upper_triangle_witness :
    (⟨some 0, some 0, some 0, some 0, some 0, some 0, none, none,
          none⟩ : RotationalInertiaStorage).isFiniteStored =
        (⟨some 0, some 0, some 0, some 0, some 0, some 0, some 1, some 1,
          some 1⟩ : RotationalInertiaStorage).isFiniteStored ∧
      (⟨some 0, some 0, some 0, some 0, some 0, some 0, none, none,
          none⟩ : RotationalInertiaStorage).isNaNStored =
        (⟨some 0, some 0, some 0, some 0, some 0, some 0, some 1, some 1,
          some 1⟩ : RotationalInertiaStorage).isNaNStored ∧
      (⟨some 0, some 0, some 0, some 0, some 0, some 0, none, none,
          none⟩ : RotationalInertiaStorage).isZeroStored =
        (⟨some 0, some 0, some 0, some 0, some 0, some 0, some 1, some 1,
          some 1⟩ : RotationalInertiaStorage).isZeroStored :=
  predicates_ignore_upper_triangle_sentinels.1 _ _ ⟨rfl, rfl, rfl, rfl, rfl,
    rfl⟩

end RotationalInertiaStorage

end DrakeMultibody
